import Mathlib

/-!
Shallow embedding of the socket-performance-benchmark tool
(src/tcp_benchmark.py, src/udp_benchmark.py, src/benchmark_runner.py,
src/common.py).

Python floats (millisecond durations and derived statistics) are modelled as
rationals; byte strings as lists of naturals; code that can raise returns
`Except`/`Option`.  The network is abstracted as a script assigning to each
loop iteration the event the socket layer delivers, so the client loops
become pure recursive functions over that script.
-/

/-- Execution state of a `TCPBenchmark`/`UDPBenchmark` object: the configured
data size and iteration count, and the recorded sample durations in
milliseconds (`self.results`). -/
structure BenchState where
  data_size : Nat
  iterations : Nat
  results : List ℚ
  deriving Repr, DecidableEq

/-- The dictionary returned by `get_result`.  The field `std_dev_sq` holds the
square of the code's `std_dev` entry: the code stores
`statistics.stdev(results)`, the square root of the sample variance, and
square roots are not rational, so the embedding carries the variance itself;
`std_dev = 0` exactly when `std_dev_sq = 0`, and `std_dev` equals the sample
standard-deviation formula exactly when `std_dev_sq` equals the sample
variance. -/
structure ResultSummary where
  total_time : ℚ
  avg_time : ℚ
  min_time : ℚ
  max_time : ℚ
  std_dev_sq : ℚ
  throughput : ℚ
  total_data_mb : ℚ
  deriving Repr, DecidableEq

/-- Python builtin `min` over a nonempty list (0 for the empty list, on which
the code never calls it). -/
def listMin : List ℚ → ℚ
  | [] => 0
  | x :: xs => xs.foldl min x

/-- Python builtin `max` over a nonempty list (0 for the empty list, on which
the code never calls it). -/
def listMax : List ℚ → ℚ
  | [] => 0
  | x :: xs => xs.foldl max x

/-- Python `statistics.mean`: the sum divided by the length. -/
def pyMean (xs : List ℚ) : ℚ := xs.sum / (xs.length : ℚ)

/-- Square of Python `statistics.stdev`: the sample variance, summed squared
deviations from the mean divided by `n - 1`. -/
def pyStdevSq (xs : List ℚ) : ℚ :=
  (xs.map (fun x => (x - pyMean xs) ^ 2)).sum / ((xs.length : ℚ) - 1)

/-- Sample variance written from the spec's words (the sample `(n-1)`
standard-deviation formula), kept as a separate definition to compare with
the code's path through `statistics.stdev`. -/
def sampleVarianceSpec (xs : List ℚ) : ℚ :=
  (xs.map (fun x => (x - xs.sum / (xs.length : ℚ)) ^ 2)).sum /
    ((xs.length : ℚ) - 1)

namespace TCPBenchmark

/-- Embedding of `TCPBenchmark.get_result` (src/tcp_benchmark.py lines
141-163).  Empty `results` returns `None` before any statistic is computed.
Otherwise the statistics are computed in order; `total_data` uses the
configured `self.iterations`, and the `throughput` division raises
`ZeroDivisionError` when `total_time` is zero, which the `Except` layer
records. -/
def get_result (s : BenchState) : Except String (Option ResultSummary) :=
  if s.results = [] then .ok none
  else
    let total_time := s.results.sum
    let avg_time := pyMean s.results
    let min_time := listMin s.results
    let max_time := listMax s.results
    let std_dev_sq := if 1 < s.results.length then pyStdevSq s.results else 0
    let total_data : ℚ := (s.iterations : ℚ) * (s.data_size : ℚ) * 2
    if total_time = 0 then .error "ZeroDivisionError"
    else
      .ok (some
        { total_time := total_time
          avg_time := avg_time
          min_time := min_time
          max_time := max_time
          std_dev_sq := std_dev_sq
          throughput := total_data / 1024 / 1024 / (total_time / 1000)
          total_data_mb := total_data / 1024 / 1024 })

end TCPBenchmark

namespace UDPBenchmark

/-- Embedding of `UDPBenchmark.get_result` (src/udp_benchmark.py lines
79-101); its body is textually identical to `TCPBenchmark.get_result`. -/
def get_result (s : BenchState) : Except String (Option ResultSummary) :=
  if s.results = [] then .ok none
  else
    let total_time := s.results.sum
    let avg_time := pyMean s.results
    let min_time := listMin s.results
    let max_time := listMax s.results
    let std_dev_sq := if 1 < s.results.length then pyStdevSq s.results else 0
    let total_data : ℚ := (s.iterations : ℚ) * (s.data_size : ℚ) * 2
    if total_time = 0 then .error "ZeroDivisionError"
    else
      .ok (some
        { total_time := total_time
          avg_time := avg_time
          min_time := min_time
          max_time := max_time
          std_dev_sq := std_dev_sq
          throughput := total_data / 1024 / 1024 / (total_time / 1000)
          total_data_mb := total_data / 1024 / 1024 })

end UDPBenchmark

/-- Throughput field of a `get_result` outcome, when a summary was produced
(analysis accessor, not part of the source). -/
def throughputOf : Except String (Option ResultSummary) → Option ℚ
  | .ok (some r) => some r.throughput
  | _ => none

/-- Squared standard-deviation field of a `get_result` outcome, when a
summary was produced (analysis accessor, not part of the source). -/
def stdDevSqOf : Except String (Option ResultSummary) → Option ℚ
  | .ok (some r) => some r.std_dev_sq
  | _ => none

/-- Modelled from the spec sentence of the throughput claim: throughput
computed from `iterations_completed`, the number of samples actually
collected, rather than from the configured iteration count. -/
def spec_throughput_completed (s : BenchState) : ℚ :=
  ((s.results.length : ℚ) * (s.data_size : ℚ) * 2 / 1048576) /
    (s.results.sum / 1000)

/-- The fixed payload `b'x' * data_size` (`x` is byte 120). -/
def testData (n : Nat) : List Nat := List.replicate n 120

/-- Embedding of the UDP server's per-datagram step (src/udp_benchmark.py
lines 28-31): the received data is echoed with the fixed payload exactly when
its length equals `data_size`; otherwise nothing is sent. -/
def udp_server_step (data_size : Nat) (data : List Nat) : Option (List Nat) :=
  if data.length = data_size then some (testData data_size) else none

/-- Embedding of the TCP server's per-chunk step in `handle_client`
(src/tcp_benchmark.py lines 51-59): a zero-length read means the client
disconnected and nothing is written; any other length only logs a warning on
mismatch and the fixed payload is written back. -/
def tcp_server_step (data_size : Nat) (data : List Nat) : Option (List Nat) :=
  if data.length = 0 then none else some (testData data_size)

/-- Event delivered to one iteration of the UDP client loop: a reply datagram
with its round duration, a `socket.timeout` from `recvfrom`, or any other
socket exception. -/
inductive UdpNetEvent where
  | reply (duration : ℚ) (data : List Nat)
  | timeout
  | sockError
  deriving Repr, DecidableEq

/-- Embedding of the `udp_client` loop (src/udp_benchmark.py lines 49-75).
The `try`/`except` wraps the entire `for` loop, so a `socket.timeout` (or any
other exception) raised in one iteration terminates the loop with the samples
collected so far; a successful round appends its duration, after which a
length mismatch only warns.  `i` is the current iteration index, the second
argument the remaining iteration count, `acc` the `results` list. -/
def udp_client_go (script : Nat → UdpNetEvent) : Nat → Nat → List ℚ → List ℚ
  | _, 0, acc => acc
  | i, fuel + 1, acc =>
    match script i with
    | .timeout => acc
    | .sockError => acc
    | .reply d _ => udp_client_go script (i + 1) fuel (acc ++ [d])

/-- Run of `udp_client` for `iterations` rounds against a network script,
returning the final `results` list. -/
def udp_client_run (iterations : Nat) (script : Nat → UdpNetEvent) : List ℚ :=
  udp_client_go script 0 iterations []

/-- Modelled from the spec sentence of the per-iteration-resilience claim: a
receive timeout is caught inside the single iteration and the client proceeds
to the next iteration with no sample recorded for the lost round. -/
def udp_client_spec_go (script : Nat → UdpNetEvent) :
    Nat → Nat → List ℚ → List ℚ
  | _, 0, acc => acc
  | i, fuel + 1, acc =>
    match script i with
    | .timeout => udp_client_spec_go script (i + 1) fuel acc
    | .sockError => udp_client_spec_go script (i + 1) fuel acc
    | .reply d _ => udp_client_spec_go script (i + 1) fuel (acc ++ [d])

/-- Run of the spec-modelled per-iteration-resilient UDP client. -/
def udp_client_spec_run (iterations : Nat) (script : Nat → UdpNetEvent) :
    List ℚ :=
  udp_client_spec_go script 0 iterations []

/-- Concrete network script: the reply to iteration 0 times out, every later
iteration completes normally in 1 ms. -/
def scriptTimeoutFirst : Nat → UdpNetEvent
  | 0 => .timeout
  | _ + 1 => .reply 1 (testData 1024)

/-- Event delivered to one iteration of the TCP client loop: a completed
round with its duration and the data read, a timeout while sending, a
timeout while receiving, or a connection-level exception. -/
inductive TcpNetEvent where
  | recv (duration : ℚ) (data : List Nat)
  | sendTimeoutEv
  | recvTimeoutEv
  | connError
  deriving Repr, DecidableEq

/-- Embedding of the `tcp_client` loop (src/tcp_benchmark.py lines 90-127).
A send or receive timeout breaks out of the loop with no sample for that
round; a connection-level exception aborts the loop through the outer
`except` clauses; a completed round appends its duration first and only then
checks for a zero-length read (server disconnect), breaking after the append,
while any other length mismatch only warns. -/
def tcp_client_go (script : Nat → TcpNetEvent) : Nat → Nat → List ℚ → List ℚ
  | _, 0, acc => acc
  | i, fuel + 1, acc =>
    match script i with
    | .sendTimeoutEv => acc
    | .recvTimeoutEv => acc
    | .connError => acc
    | .recv d data =>
      if data.length = 0 then acc ++ [d]
      else tcp_client_go script (i + 1) fuel (acc ++ [d])

/-- Run of `tcp_client` for `iterations` rounds against a network script,
returning the final `results` list. -/
def tcp_client_run (iterations : Nat) (script : Nat → TcpNetEvent) : List ℚ :=
  tcp_client_go script 0 iterations []

/-- Execution mode of the orchestrator. -/
inductive ExecMode where
  | localMode
  | remoteMode
  deriving Repr, DecidableEq

/-- Mode selection in `run_tcp_benchmark` and `run_udp_benchmark`
(src/benchmark_runner.py lines 85 and 121): local mode, with an embedded
server, exactly when `self.host == 'localhost'` as strings; otherwise remote
mode running only the client leg. -/
def select_mode (host : String) : ExecMode :=
  if host = "localhost" then .localMode else .remoteMode

/-- Modelled from the spec: the spec speaks of loopback host values without
enumerating them; the standard loopback identifiers are `localhost`, the
IPv4 address `127.0.0.1` and the IPv6 address `::1`. -/
def is_loopback_host (host : String) : Bool :=
  host = "localhost" || host = "127.0.0.1" || host = "::1"

/-- Result of `run_comparison_benchmark`: the boolean it returns, or the
exception that propagated out of it. -/
inductive CompOutcome where
  | returned (b : Bool)
  | raised (e : String)
  deriving Repr, DecidableEq

/-- Observable trace of one `run_comparison_benchmark` call: whether each
protocol leg was attempted, and how the call ended. -/
structure ComparisonTrace where
  tcpAttempted : Bool
  udpAttempted : Bool
  outcome : CompOutcome
  deriving Repr, DecidableEq

/-- Embedding of `check_network_connectivity` (src/benchmark_runner.py lines
27-77): `localhost` returns `True` immediately; otherwise the ping and the
TCP port probe must both succeed, while a UDP probe failure only warns and
never fails the check. -/
def check_network_connectivity (host : String) (pingOk tcpPortOk : Bool) :
    Bool :=
  if host = "localhost" then true else pingOk && tcpPortOk

/-- Embedding of `run_comparison_benchmark` (src/benchmark_runner.py lines
150-178).  For a non-localhost host a failed connectivity pre-check returns
`False` before either leg runs.  The TCP and UDP runs are plain sequential
calls with no surrounding exception handling, so an uncaught exception in the
TCP run propagates out of the method and the UDP run is never reached.  The
outcomes of the two legs are abstracted as the `Except` arguments. -/
def run_comparison_benchmark (host : String) (pingOk tcpPortOk : Bool)
    (tcpRun udpRun : Except String (Option ℚ)) : ComparisonTrace :=
  if host ≠ "localhost" ∧ check_network_connectivity host pingOk tcpPortOk = false then
    ⟨false, false, .returned false⟩
  else
    match tcpRun with
    | .error e => ⟨true, false, .raised e⟩
    | .ok _ =>
      match udpRun with
      | .error e => ⟨true, true, .raised e⟩
      | .ok _ => ⟨true, true, .returned true⟩

/-- C3: for every benchmark state whose recorded sample sequence is empty,
`get_result` returns `None` and raises no exception, in particular no
division by zero, for both `TCPBenchmark` and `UDPBenchmark`. -/
theorem C3_empty_results_give_none (s : BenchState) (h : s.results = []) :
    TCPBenchmark.get_result s = .ok none ∧
    UDPBenchmark.get_result s = .ok none := by
  constructor <;> simp [TCPBenchmark.get_result, UDPBenchmark.get_result, h]

/-- Witness for C3 at a concrete empty-sample state. -/
theorem C3_witness :
    TCPBenchmark.get_result ⟨1024, 1000, []⟩ = .ok none ∧
    UDPBenchmark.get_result ⟨1024, 1000, []⟩ = .ok none :=
  C3_empty_results_give_none ⟨1024, 1000, []⟩ rfl

/-- C1 counterexample: at the state with `data_size = 1024`, configured
`iterations = 2` but a single collected sample of 1 ms, both `get_result`
embeddings report throughput 125/32 MB/s, computed from the configured
iteration count, while the spec's formula over `iterations_completed` (the
one sample collected) gives 125/64 MB/s; moreover with a single sample of
0 ms the code raises `ZeroDivisionError` instead of returning a summary. -/
theorem C1_counterexample :
    throughputOf (TCPBenchmark.get_result ⟨1024, 2, [1]⟩) = some (125 / 32) ∧
    throughputOf (UDPBenchmark.get_result ⟨1024, 2, [1]⟩) = some (125 / 32) ∧
    spec_throughput_completed ⟨1024, 2, [1]⟩ = 125 / 64 ∧
    ((125 : ℚ) / 32) ≠ 125 / 64 ∧
    TCPBenchmark.get_result ⟨1024, 2, [0]⟩ = .error "ZeroDivisionError" ∧
    UDPBenchmark.get_result ⟨1024, 2, [0]⟩ = .error "ZeroDivisionError" := by
  refine ⟨?_, ?_, ?_, by norm_num, ?_, ?_⟩ <;>
    norm_num [TCPBenchmark.get_result, UDPBenchmark.get_result, throughputOf,
      spec_throughput_completed, pyMean, listMin, listMax, pyStdevSq]

/-- C1 amended: for every non-empty recorded sample sequence with nonzero
total time, `get_result` returns a summary whose `total_time` is the sum of
the recorded durations and whose throughput is
`(configured iterations x data_size x 2 / 1048576) / (total_time seconds)`,
using the configured iteration count rather than the number of samples
collected, for both `TCPBenchmark.get_result` and `UDPBenchmark.get_result`. -/
theorem C1_amended_throughput (s : BenchState) (h1 : s.results ≠ [])
    (h2 : s.results.sum ≠ 0) :
    ∃ r, TCPBenchmark.get_result s = .ok (some r) ∧
      UDPBenchmark.get_result s = .ok (some r) ∧
      r.total_time = s.results.sum ∧
      r.throughput =
        ((s.iterations : ℚ) * (s.data_size : ℚ) * 2 / 1048576) /
          (s.results.sum / 1000) := by
  refine ⟨{ total_time := s.results.sum
            avg_time := pyMean s.results
            min_time := listMin s.results
            max_time := listMax s.results
            std_dev_sq := if 1 < s.results.length then pyStdevSq s.results else 0
            throughput := (s.iterations : ℚ) * (s.data_size : ℚ) * 2 / 1024 /
              1024 / (s.results.sum / 1000)
            total_data_mb := (s.iterations : ℚ) * (s.data_size : ℚ) * 2 / 1024 /
              1024 },
    ?_, ?_, rfl, ?_⟩
  · simp [TCPBenchmark.get_result, h1, h2]
  · simp [UDPBenchmark.get_result, h1, h2]
  · show (s.iterations : ℚ) * (s.data_size : ℚ) * 2 / 1024 / 1024 /
        (s.results.sum / 1000) = _
    rw [div_div ((s.iterations : ℚ) * (s.data_size : ℚ) * 2) 1024 1024]
    norm_num

/-- Witness for the amended C1 at a concrete state. -/
theorem C1_amended_witness :
    throughputOf (TCPBenchmark.get_result ⟨1024, 3, [2, 3]⟩) =
      some (((3 : ℚ) * 1024 * 2 / 1048576) / (5 / 1000)) := by
  obtain ⟨r, hT, hU, ht, hth⟩ :=
    C1_amended_throughput ⟨1024, 3, [2, 3]⟩ (by decide) (by norm_num)
  rw [hT]
  simp only [throughputOf, hth]
  norm_num

/-- C7: the standard deviation reported by `get_result` (carried here as its
square, the variance) is exactly 0 for one recorded sample, the zero-sample
case being subsumed by the absent result, and for two or more samples it is
given by the sample `(n-1)` formula, for both `TCPBenchmark` and
`UDPBenchmark`. -/
theorem C7_std_dev_rule (s : BenchState) :
    (s.results = [] →
      TCPBenchmark.get_result s = .ok none ∧
      UDPBenchmark.get_result s = .ok none) ∧
    (s.results.length = 1 → s.results.sum ≠ 0 →
      stdDevSqOf (TCPBenchmark.get_result s) = some 0 ∧
      stdDevSqOf (UDPBenchmark.get_result s) = some 0) ∧
    (2 ≤ s.results.length → s.results.sum ≠ 0 →
      stdDevSqOf (TCPBenchmark.get_result s) =
        some (sampleVarianceSpec s.results) ∧
      stdDevSqOf (UDPBenchmark.get_result s) =
        some (sampleVarianceSpec s.results)) := by
  refine ⟨fun h => ?_, fun h1 h2 => ?_, fun h1 h2 => ?_⟩
  · constructor <;> simp [TCPBenchmark.get_result, UDPBenchmark.get_result, h]
  · have hne : s.results ≠ [] := by
      intro he
      rw [he] at h1
      simp at h1
    constructor <;>
      simp [TCPBenchmark.get_result, UDPBenchmark.get_result, stdDevSqOf,
        hne, h2, h1]
  · have hne : s.results ≠ [] := by
      intro he
      rw [he] at h1
      simp at h1
    have h3 : 1 < s.results.length := by omega
    constructor <;>
      simp [TCPBenchmark.get_result, UDPBenchmark.get_result, stdDevSqOf,
        hne, h2, h3, pyStdevSq, pyMean, sampleVarianceSpec]

/-- Witness for C7 at a concrete two-sample state. -/
theorem C7_witness :
    stdDevSqOf (TCPBenchmark.get_result ⟨8, 5, [1, 3]⟩) =
      some (sampleVarianceSpec [1, 3]) ∧
    stdDevSqOf (UDPBenchmark.get_result ⟨8, 5, [1, 3]⟩) =
      some (sampleVarianceSpec [1, 3]) :=
  (C7_std_dev_rule ⟨8, 5, [1, 3]⟩).2.2 (by decide)
    (by norm_num [List.sum_cons, List.sum_nil])

/-- C4: the UDP server echoes a received datagram exactly when its length
equals `data_size`, replying with the fixed payload, while the TCP server
echoes the fixed payload for every non-empty chunk, even on a length
mismatch, which is only logged. -/
theorem C4_echo_asymmetry (ds : Nat) (data : List Nat) :
    ((udp_server_step ds data).isSome ↔ data.length = ds) ∧
    (data.length = ds → udp_server_step ds data = some (testData ds)) ∧
    (data ≠ [] → tcp_server_step ds data = some (testData ds)) := by
  refine ⟨?_, fun h => ?_, fun h => ?_⟩
  · unfold udp_server_step
    split <;> simp_all
  · simp [udp_server_step, h]
  · simp [tcp_server_step, List.length_eq_zero, h]

/-- Witness for C4 at concrete datagrams and chunks. -/
theorem C4_witness :
    udp_server_step 4 [1, 2, 3, 4] = some (testData 4) ∧
    tcp_server_step 4 [9, 9] = some (testData 4) :=
  ⟨(C4_echo_asymmetry 4 [1, 2, 3, 4]).2.1 (by decide),
   (C4_echo_asymmetry 4 [9, 9]).2.2 (by decide)⟩

/-- C2 counterexample: against the script whose first reply times out and
whose later rounds all succeed, the embedded `udp_client` records no sample
at all for a 2-iteration run, while the spec's per-iteration-resilient client
would record the sample of the second iteration: the timeout aborts the
remaining iterations. -/
theorem C2_counterexample :
    udp_client_run 2 scriptTimeoutFirst = [] ∧
    udp_client_spec_run 2 scriptTimeoutFirst = [1] ∧
    udp_client_run 2 scriptTimeoutFirst ≠
      udp_client_spec_run 2 scriptTimeoutFirst :=
  ⟨by decide, by decide, by decide⟩

/-- Loop lemma for the UDP client: if the first `i` iterations starting at
index `s` complete and iteration `s + i` times out within the remaining fuel,
the loop stops there, keeping only the earlier samples. -/
theorem udp_client_go_abort (script : Nat → UdpNetEvent) (d : Nat → ℚ)
    (dat : Nat → List Nat) :
    ∀ (i s fuel : Nat) (acc : List ℚ), i < fuel →
      (∀ j, j < i → script (s + j) = .reply (d (s + j)) (dat (s + j))) →
      script (s + i) = .timeout →
      udp_client_go script s fuel acc =
        acc ++ (List.range i).map (fun j => d (s + j)) := by
  intro i
  induction i with
  | zero =>
    intro s fuel acc hf _ hto
    rw [Nat.add_zero] at hto
    cases fuel with
    | zero => omega
    | succ f => simp [udp_client_go, hto]
  | succ i ih =>
    intro s fuel acc hf hgood hto
    cases fuel with
    | zero => omega
    | succ f =>
      have h0 : script s = .reply (d s) (dat s) := by
        have h := hgood 0 (Nat.succ_pos i)
        rwa [Nat.add_zero] at h
      have hgood' : ∀ j, j < i →
          script (s + 1 + j) = .reply (d (s + 1 + j)) (dat (s + 1 + j)) := by
        intro j hj
        have h := hgood (j + 1) (by omega)
        rwa [show s + (j + 1) = s + 1 + j by omega] at h
      have hto' : script (s + 1 + i) = .timeout := by
        rwa [show s + (i + 1) = s + 1 + i by omega] at hto
      have hmap : (List.range i).map (fun j => d (s + 1 + j)) =
          (List.range i).map (fun j => d (s + (j + 1))) := by
        apply List.map_congr_left
        intro j _
        congr 1
        omega
      calc udp_client_go script s (f + 1) acc
          = udp_client_go script (s + 1) f (acc ++ [d s]) := by
            simp [udp_client_go, h0]
        _ = (acc ++ [d s]) ++ (List.range i).map (fun j => d (s + 1 + j)) :=
            ih (s + 1) f (acc ++ [d s]) (by omega) hgood' hto'
        _ = acc ++ (List.range (i + 1)).map (fun j => d (s + j)) := by
            rw [hmap, List.range_succ_eq_map]
            simp [List.map_map, Function.comp]

/-- C2 amended: a receive timeout in the UDP client is caught by the handler
wrapping the whole loop, so the loop terminates at the timed-out iteration:
the remaining iterations are not executed and the recorded samples are
exactly those of the iterations completed before the timeout. -/
theorem C2_amended_timeout_aborts (n : Nat) (script : Nat → UdpNetEvent)
    (i : Nat) (d : Nat → ℚ) (dat : Nat → List Nat) (hi : i < n)
    (hgood : ∀ j, j < i → script j = .reply (d j) (dat j))
    (hto : script i = .timeout) :
    udp_client_run n script = (List.range i).map d := by
  have h := udp_client_go_abort script d dat i 0 n [] hi
    (fun j hj => by simpa using hgood j hj) (by simpa using hto)
  simpa [udp_client_run] using h

/-- Witness for the amended C2: the timeout-first script aborts a
2-iteration run with no samples. -/
theorem C2_amended_witness : udp_client_run 2 scriptTimeoutFirst = [] := by
  simpa using C2_amended_timeout_aborts 2 scriptTimeoutFirst 0 (fun _ => 1)
    (fun _ => []) (by omega) (fun j hj => absurd hj (Nat.not_lt_zero j))
    (by decide)

/-- Loop lemma for the UDP client: each iteration appends at most one sample,
so the final `results` length is bounded by the starting length plus the
remaining fuel. -/
theorem udp_client_go_length_le (script : Nat → UdpNetEvent) :
    ∀ (fuel s : Nat) (acc : List ℚ),
      (udp_client_go script s fuel acc).length ≤ acc.length + fuel := by
  intro fuel
  induction fuel with
  | zero =>
    intro s acc
    simp [udp_client_go]
  | succ f ih =>
    intro s acc
    cases hev : script s with
    | reply d data =>
      calc (udp_client_go script s (f + 1) acc).length
          = (udp_client_go script (s + 1) f (acc ++ [d])).length := by
            simp [udp_client_go, hev]
        _ ≤ (acc ++ [d]).length + f := ih (s + 1) (acc ++ [d])
        _ ≤ acc.length + (f + 1) := by
            simp
            omega
    | timeout =>
      simp [udp_client_go, hev]
    | sockError =>
      simp [udp_client_go, hev]

/-- Loop lemma for the UDP client: when every remaining iteration receives a
reply, each iteration appends exactly one sample. -/
theorem udp_client_go_length_eq (script : Nat → UdpNetEvent) :
    ∀ (fuel s : Nat) (acc : List ℚ),
      (∀ j, j < fuel → ∃ d data, script (s + j) = .reply d data) →
      (udp_client_go script s fuel acc).length = acc.length + fuel := by
  intro fuel
  induction fuel with
  | zero =>
    intro s acc _
    simp [udp_client_go]
  | succ f ih =>
    intro s acc hgood
    obtain ⟨d, data, hd⟩ := hgood 0 (by omega)
    rw [Nat.add_zero] at hd
    have hrec := ih (s + 1) (acc ++ [d]) (fun j hj => by
      obtain ⟨d', data', h'⟩ := hgood (j + 1) (by omega)
      exact ⟨d', data', by rwa [show s + (j + 1) = s + 1 + j by omega] at h'⟩)
    calc (udp_client_go script s (f + 1) acc).length
        = (udp_client_go script (s + 1) f (acc ++ [d])).length := by
          simp [udp_client_go, hd]
      _ = (acc ++ [d]).length + f := hrec
      _ = acc.length + (f + 1) := by
          simp
          omega

/-- Loop lemma for the TCP client: each iteration appends at most one sample,
so the final `results` length is bounded by the starting length plus the
remaining fuel. -/
theorem tcp_client_go_length_le (script : Nat → TcpNetEvent) :
    ∀ (fuel s : Nat) (acc : List ℚ),
      (tcp_client_go script s fuel acc).length ≤ acc.length + fuel := by
  intro fuel
  induction fuel with
  | zero =>
    intro s acc
    simp [tcp_client_go]
  | succ f ih =>
    intro s acc
    cases hev : script s with
    | recv d data =>
      by_cases hz : data.length = 0
      · simp [tcp_client_go, hev, hz]
      · calc (tcp_client_go script s (f + 1) acc).length
            = (tcp_client_go script (s + 1) f (acc ++ [d])).length := by
              simp [tcp_client_go, hev, hz]
          _ ≤ (acc ++ [d]).length + f := ih (s + 1) (acc ++ [d])
          _ ≤ acc.length + (f + 1) := by
              simp
              omega
    | sendTimeoutEv =>
      simp [tcp_client_go, hev]
    | recvTimeoutEv =>
      simp [tcp_client_go, hev]
    | connError =>
      simp [tcp_client_go, hev]

/-- Loop lemma for the TCP client: when every remaining iteration completes
with a non-empty read, each iteration appends exactly one sample. -/
theorem tcp_client_go_length_eq (script : Nat → TcpNetEvent) :
    ∀ (fuel s : Nat) (acc : List ℚ),
      (∀ j, j < fuel → ∃ d data, script (s + j) = .recv d data ∧ data ≠ []) →
      (tcp_client_go script s fuel acc).length = acc.length + fuel := by
  intro fuel
  induction fuel with
  | zero =>
    intro s acc _
    simp [tcp_client_go]
  | succ f ih =>
    intro s acc hgood
    obtain ⟨d, data, hd, hne⟩ := hgood 0 (by omega)
    rw [Nat.add_zero] at hd
    have hz : ¬data.length = 0 := by
      simpa [List.length_eq_zero] using hne
    have hrec := ih (s + 1) (acc ++ [d]) (fun j hj => by
      obtain ⟨d', data', h', hne'⟩ := hgood (j + 1) (by omega)
      exact ⟨d', data',
        by rwa [show s + (j + 1) = s + 1 + j by omega] at h', hne'⟩)
    calc (tcp_client_go script s (f + 1) acc).length
        = (tcp_client_go script (s + 1) f (acc ++ [d])).length := by
          simp [tcp_client_go, hd, hz]
      _ = (acc ++ [d]).length + f := hrec
      _ = acc.length + (f + 1) := by
          simp
          omega

/-- C8: every run of either client loop records at most one sample per
iteration, so at most `iterations` samples overall, and exactly `iterations`
samples when no timeout, disconnect or error occurs. -/
theorem C8_sample_count (n : Nat) (scriptU : Nat → UdpNetEvent)
    (scriptT : Nat → TcpNetEvent) :
    (udp_client_run n scriptU).length ≤ n ∧
    (tcp_client_run n scriptT).length ≤ n ∧
    ((∀ i, i < n → ∃ d data, scriptU i = .reply d data) →
      (udp_client_run n scriptU).length = n) ∧
    ((∀ i, i < n → ∃ d data, scriptT i = .recv d data ∧ data ≠ []) →
      (tcp_client_run n scriptT).length = n) := by
  refine ⟨?_, ?_, fun h => ?_, fun h => ?_⟩
  · simpa [udp_client_run] using udp_client_go_length_le scriptU n 0 []
  · simpa [tcp_client_run] using tcp_client_go_length_le scriptT n 0 []
  · simpa [udp_client_run] using
      udp_client_go_length_eq scriptU n 0 [] (fun j hj => by simpa using h j hj)
  · simpa [tcp_client_run] using
      tcp_client_go_length_eq scriptT n 0 [] (fun j hj => by simpa using h j hj)

/-- Fault-free UDP script used by the C8 witness. -/
def scriptAllGoodU : Nat → UdpNetEvent := fun _ => .reply 1 (testData 4)

/-- Fault-free TCP script used by the C8 witness. -/
def scriptAllGoodT : Nat → TcpNetEvent := fun _ => .recv 1 (testData 4)

/-- Witness for C8: two fault-free iterations record exactly two samples. -/
theorem C8_witness :
    (udp_client_run 2 scriptAllGoodU).length = 2 ∧
    (tcp_client_run 2 scriptAllGoodT).length = 2 :=
  ⟨(C8_sample_count 2 scriptAllGoodU scriptAllGoodT).2.2.1
      (fun i _ => ⟨1, testData 4, rfl⟩),
   (C8_sample_count 2 scriptAllGoodU scriptAllGoodT).2.2.2
      (fun i _ => ⟨1, testData 4, rfl, by decide⟩)⟩

/-- Loop lemma for the TCP client: with `i` completed non-empty rounds from
index `s` and a zero-length read at iteration `s + i`, the loop appends the
disconnecting round's duration before breaking, ending with `i + 1` new
samples. -/
theorem tcp_client_go_disconnect (script : Nat → TcpNetEvent) (d0 : ℚ) :
    ∀ (i s fuel : Nat) (acc : List ℚ), i < fuel →
      (∀ j, j < i → ∃ d data, script (s + j) = .recv d data ∧ data ≠ []) →
      script (s + i) = .recv d0 [] →
      (tcp_client_go script s fuel acc).length = acc.length + i + 1 := by
  intro i
  induction i with
  | zero =>
    intro s fuel acc hf _ hdisc
    rw [Nat.add_zero] at hdisc
    cases fuel with
    | zero => omega
    | succ f =>
      simp [tcp_client_go, hdisc]
  | succ i ih =>
    intro s fuel acc hf hgood hdisc
    cases fuel with
    | zero => omega
    | succ f =>
      obtain ⟨d, data, hd, hne⟩ := hgood 0 (Nat.succ_pos i)
      rw [Nat.add_zero] at hd
      have hz : ¬data.length = 0 := by
        simpa [List.length_eq_zero] using hne
      have hrec := ih (s + 1) f (acc ++ [d]) (by omega)
        (fun j hj => by
          obtain ⟨d', data', h', hne'⟩ := hgood (j + 1) (by omega)
          exact ⟨d', data',
            by rwa [show s + (j + 1) = s + 1 + j by omega] at h', hne'⟩)
        (by rwa [show s + (i + 1) = s + 1 + i by omega] at hdisc)
      calc (tcp_client_go script s (f + 1) acc).length
          = (tcp_client_go script (s + 1) f (acc ++ [d])).length := by
            simp [tcp_client_go, hd, hz]
        _ = (acc ++ [d]).length + i + 1 := hrec
        _ = acc.length + (i + 1) + 1 := by
            simp
            omega

/-- C10: the TCP client appends the round duration before checking for a
zero-length read, so the iteration detecting the server's disconnect still
contributes one sample: with `i` completed rounds before the disconnect the
final sample count is `i + 1`. -/
theorem C10_disconnect_still_sampled (n : Nat) (script : Nat → TcpNetEvent)
    (i : Nat) (d0 : ℚ) (hi : i < n)
    (hbefore : ∀ j, j < i → ∃ d data, script j = .recv d data ∧ data ≠ [])
    (hdisc : script i = .recv d0 []) :
    (tcp_client_run n script).length = i + 1 := by
  have h := tcp_client_go_disconnect script d0 i 0 n [] hi
    (fun j hj => by simpa using hbefore j hj) (by simpa using hdisc)
  simpa [tcp_client_run] using h

/-- TCP script for the C10 witness: a good round, then a zero-length read. -/
def scriptDisconnectAt1 : Nat → TcpNetEvent := fun i =>
  if i = 1 then .recv 2 [] else .recv 1 (testData 4)

/-- Witness for C10: with one completed round and a disconnect detected on
iteration 1 of 3, two samples are recorded. -/
theorem C10_witness : (tcp_client_run 3 scriptDisconnectAt1).length = 1 + 1 :=
  C10_disconnect_still_sampled 3 scriptDisconnectAt1 1 2 (by omega)
    (fun j hj => ⟨1, testData 4, by
      interval_cases j
      · exact ⟨by decide, by decide⟩⟩)
    (by decide)

/-- C5 counterexample: in a local comparison run whose TCP leg raises an
uncaught exception, `run_comparison_benchmark` propagates the exception and
the UDP leg is never attempted. -/
theorem C5_counterexample :
    (run_comparison_benchmark "localhost" true true
        (.error "boom") (.ok none)).udpAttempted = false ∧
    run_comparison_benchmark "localhost" true true (.error "boom") (.ok none) =
      ⟨true, false, .raised "boom"⟩ := by
  constructor <;> decide

/-- C5 amended: in comparison mode the two protocol runs are sequential with
no surrounding exception handler, so the UDP run is attempted exactly when
the connectivity gate passes and the TCP run finishes without an uncaught
exception; an exception in the TCP run propagates out of the method and
prevents the UDP run. -/
theorem C5_amended_sequential_runs (host : String) (pingOk tcpPortOk : Bool)
    (tcpRun udpRun : Except String (Option ℚ)) :
    ((run_comparison_benchmark host pingOk tcpPortOk tcpRun udpRun).tcpAttempted
        = true ↔
      (host = "localhost" ∨
        check_network_connectivity host pingOk tcpPortOk = true)) ∧
    ((run_comparison_benchmark host pingOk tcpPortOk tcpRun udpRun).udpAttempted
        = true ↔
      ((host = "localhost" ∨
          check_network_connectivity host pingOk tcpPortOk = true) ∧
        ∃ v, tcpRun = .ok v)) := by
  unfold run_comparison_benchmark
  by_cases hh : host = "localhost" <;>
    cases hc : check_network_connectivity host pingOk tcpPortOk <;>
      cases tcpRun <;> cases udpRun <;>
        simp_all [check_network_connectivity]

/-- C6 counterexample: in a remote comparison run whose connectivity
pre-check fails, `run_comparison_benchmark` returns `False` with neither leg
attempted; in particular the UDP leg is not attempted. -/
theorem C6_counterexample :
    check_network_connectivity "192.168.1.50" false false = false ∧
    run_comparison_benchmark "192.168.1.50" false false (.ok none) (.ok none) =
      ⟨false, false, .returned false⟩ ∧
    (run_comparison_benchmark "192.168.1.50" false false
        (.ok none) (.ok none)).udpAttempted = false := by
  refine ⟨by decide, by decide, by decide⟩

/-- C6 amended: in a remote comparison run, a failed connectivity pre-check
makes `run_comparison_benchmark` return `False` immediately: no client
iteration of either protocol starts, and neither the TCP nor the UDP leg is
attempted. -/
theorem C6_amended_precheck_aborts_both (host : String)
    (pingOk tcpPortOk : Bool) (tcpRun udpRun : Except String (Option ℚ))
    (hremote : host ≠ "localhost")
    (hfail : check_network_connectivity host pingOk tcpPortOk = false) :
    run_comparison_benchmark host pingOk tcpPortOk tcpRun udpRun =
      ⟨false, false, .returned false⟩ := by
  unfold run_comparison_benchmark
  rw [if_pos ⟨hremote, hfail⟩]

/-- Witness for the amended C6 at a concrete unreachable host. -/
theorem C6_witness :
    run_comparison_benchmark "10.0.0.9" false true (.ok none) (.ok none) =
      ⟨false, false, .returned false⟩ :=
  C6_amended_precheck_aborts_both "10.0.0.9" false true (.ok none) (.ok none)
    (by decide) (by decide)

/-- C9 counterexample: the host value `127.0.0.1` is a loopback host value,
yet the orchestrator's string comparison against the literal `localhost`
selects remote mode for it. -/
theorem C9_counterexample :
    is_loopback_host "127.0.0.1" = true ∧
    select_mode "127.0.0.1" = .remoteMode := by
  constructor <;> decide

/-- C9 amended: the orchestrator selects local mode, with an embedded server,
exactly when the host equals the literal string `localhost`; every other
host value, including other loopback addresses such as `127.0.0.1`, selects
remote mode with only the client leg. -/
theorem C9_amended_mode_literal (host : String) :
    (select_mode host = .localMode ↔ host = "localhost") ∧
    (select_mode host = .remoteMode ↔ host ≠ "localhost") := by
  unfold select_mode
  by_cases h : host = "localhost" <;> simp [h]
